import Mathlib

/-!
# Shallow embedding of the Shipping-Container-OCR core

This file embeds the identifier validation engine
(src/src/container_validator.py together with the letter-value table of
src/config.py) and the extraction-correction loop
(ContainerOCR.extract_container_data in src/container_ocr.py, with the
response parsing of src/llm_client.py), and proves or refutes the frozen
claims about them.

Python strings are modelled as lists of Unicode codepoints (List Nat);
string literals are injected with `ofStr`. Case folding (str.upper) is
modelled on the ASCII range, which covers every character class the
validator distinguishes. Fallible Python code is modelled with Except,
the distinct exception classes that the control flow distinguishes are
modelled by the PyErr type below.
-/

/-- Codepoints of a string literal, the embedding of a Python str value. -/
def ofStr (s : String) : List Nat := s.data.map Char.toNat

/-- Model of str.upper on one codepoint (ASCII range). -/
def pyUpper (n : Nat) : Nat := if 97 ≤ n ∧ n ≤ 122 then n - 32 else n

/-- The character class [A-Z] of the cleaning regex. -/
def isUpperCp (n : Nat) : Bool := decide (65 ≤ n ∧ n ≤ 90)

/-- The character class [0-9]: also the model of str.isdigit on ASCII. -/
def isDigitCp (n : Nat) : Bool := decide (48 ≤ n ∧ n ≤ 57)

/-- The character class [A-Z0-9] kept by re.sub of the cleaning step. -/
def keepCp (n : Nat) : Bool := isUpperCp n || isDigitCp n

/-- Model of str.isalpha on ASCII letters (the only letters that survive
cleaning are uppercase, so the reachable domain is [A-Z]). -/
def pyIsAlpha (n : Nat) : Bool := isUpperCp n || decide (97 ≤ n ∧ n ≤ 122)

/-- re.sub applied after str.upper: remove every character that is not an
uppercase letter or digit. Shared by clean_container_id,
calculate_check_digit and validate_container_id in the source. -/
def pyCleanAlnum (s : List Nat) : List Nat := (s.map pyUpper).filter keepCp

/-- clean_container_id from src/src/container_validator.py. -/
def clean_container_id (container_id : List Nat) : List Nat :=
  pyCleanAlnum container_id

/-- LETTER_VALUES from src/config.py: the gapped letter table
(multiples of 11 skipped), keyed by codepoint (65 = A, ..., 90 = Z). -/
def letterValues : Nat → Option Nat
  | 65 => some 10
  | 66 => some 12
  | 67 => some 13
  | 68 => some 14
  | 69 => some 15
  | 70 => some 16
  | 71 => some 17
  | 72 => some 18
  | 73 => some 19
  | 74 => some 20
  | 75 => some 21
  | 76 => some 23
  | 77 => some 24
  | 78 => some 25
  | 79 => some 26
  | 80 => some 27
  | 81 => some 28
  | 82 => some 29
  | 83 => some 30
  | 84 => some 31
  | 85 => some 32
  | 86 => some 34
  | 87 => some 35
  | 88 => some 36
  | 89 => some 37
  | 90 => some 38
  | _ => none

/-- The per-character loop body of calculate_check_digit: dispatch on
isalpha / isdigit, raising ValueError on anything else, and accumulate
value * 2 ^ position. -/
def sumValues : List Nat → Nat → Except String Nat
  | [], _ => Except.ok 0
  | c :: rest, i =>
    if pyIsAlpha c then
      match letterValues c with
      | some v => (sumValues rest (i + 1)).map (fun s => v * 2 ^ i + s)
      | none => Except.error "Invalid letter in container code"
    else if isDigitCp c then
      (sumValues rest (i + 1)).map (fun s => (c - 48) * 2 ^ i + s)
    else Except.error "Invalid character in container code"

/-- calculate_check_digit from src/src/container_validator.py: clean,
require exactly 10 characters, sum the weighted values, reduce mod 11
with 10 mapped to 0. ValueError is modelled by Except.error. -/
def calculate_check_digit (container_code : List Nat) : Except String Nat :=
  let code := pyCleanAlnum container_code
  if code.length ≠ 10 then
    Except.error "Container code must be exactly 10 characters after cleaning"
  else
    match sumValues code 0 with
    | Except.ok total =>
        let remainder := total % 11
        Except.ok (if remainder = 10 then 0 else remainder)
    | Except.error e => Except.error e

/-- CONTAINER_ID_PATTERN from src/config.py, applied with re.match and
fully anchored: 4 uppercase letters, then 6 digits, then 1 digit. -/
def matchesContainerPattern (s : List Nat) : Bool :=
  s.length == 11 && (s.take 4).all isUpperCp && (s.drop 4).all isDigitCp

/-- Model of str applied to the computed check digit (a small Nat). -/
def natStr (n : Nat) : List Nat := (Nat.toDigits 10 n).map Char.toNat

/-- The body of validate_container_id without its try/except: every
exception the body can raise is an Except.error. -/
def validateRaw (container_id : List Nat) : Except String Bool :=
  let cleaned_id := pyCleanAlnum container_id
  if ¬ matchesContainerPattern cleaned_id then Except.ok false
  else if cleaned_id.length ≠ 11 then Except.ok false
  else
    match cleaned_id.getLast? with
    | none => Except.error "IndexError"
    | some checkdigit =>
      if ¬ isDigitCp checkdigit then Except.ok false
      else
        match calculate_check_digit cleaned_id.dropLast with
        | Except.error e => Except.error e
        | Except.ok calculated => Except.ok (natStr calculated == [checkdigit])

/-- validate_container_id from src/src/container_validator.py: the body
above with ValueError, IndexError and AttributeError absorbed to False. -/
def validate_container_id (container_id : List Nat) : Bool :=
  match validateRaw container_id with
  | Except.ok b => b
  | Except.error _ => false

/-!
## The extraction-correction loop of ContainerOCR.extract_container_data

A round response from the oracle is either text that json.loads rejects
or a well-formed JSON array of container records. A record is its
container_id entry (absent when the key is missing from the dict) plus
an abstract payload standing for every other field, which the loop never
inspects. The whole sequence of oracle responses for a session is given
up front as a function from the round index.
-/

/-- One container record of a parsed response: the container_id entry
when the dict has the key, plus the rest of the dict abstracted. -/
structure Record where
  containerId : Option (List Nat)
  payload : Nat
deriving DecidableEq, Repr

/-- One oracle response, as handed to parse_json_response. -/
inductive RoundResp where
  | malformed
  | parsed (records : List Record)
deriving DecidableEq, Repr

/-- The exception classes the loop control flow distinguishes:
json.JSONDecodeError versus every other Exception. -/
inductive PyErr where
  | jsonDecodeError
  | generic
deriving DecidableEq, Repr

/-- LLMClient.parse_json_response from src/llm_client.py: json.loads,
with json.JSONDecodeError caught and re-raised as a plain Exception
(so the error that leaves this function is never a JSONDecodeError). -/
def parse_json_response : RoundResp → Except PyErr (List Record)
  | RoundResp.malformed => Except.error PyErr.generic
  | RoundResp.parsed records => Except.ok records

/-- The sentinel string used as the default for container.get. -/
def unknownLit : List Nat := ofStr "Unknown"

/-- The cleaning pass of the loop: container.get mutated in place with
clean_container_id whenever the container_id key is present. -/
def cleanRecord (r : Record) : Record :=
  { r with containerId := r.containerId.map clean_container_id }

/-- container.get applied with the default sentinel. -/
def getId (r : Record) : List Nat := r.containerId.getD unknownLit

/-- The invalid subset collected by one validation pass, over the
already-cleaned records: records whose identifier differs from the
literal sentinel and fails validate_container_id. -/
def invalidSubset (records : List Record) : List Record :=
  records.filter (fun r => getId r ≠ unknownLit ∧ ¬ validate_container_id (getId r))

/-- How one round of the loop body exits. -/
inductive StepOut where
  | stepRaised
  | stepRetry
  | stepConverged (records : List Record)
  | stepExhausted (records : List Record)
  | stepNext (originalCount : Nat)
deriving DecidableEq, Repr

/-- One pass of the while body of extract_container_data: parse (with
the except json.JSONDecodeError handler of the source, which is dead
code because parse_json_response re-raises a plain Exception), record
originalCount on round 0, clean, collect the invalid subset, then break
converged, break exhausted, or continue to the next round. -/
def stepRound (resp : RoundResp) (iteration maxIter oc : Nat) : StepOut :=
  match parse_json_response resp with
  | Except.error PyErr.jsonDecodeError =>
      if iteration = maxIter - 1 then StepOut.stepRaised else StepOut.stepRetry
  | Except.error PyErr.generic => StepOut.stepRaised
  | Except.ok parsedRecords =>
      let oc := if iteration = 0 then parsedRecords.length else oc
      let records := parsedRecords.map cleanRecord
      let current := records.length
      if invalidSubset records = [] ∧ current ≥ oc then StepOut.stepConverged records
      else if iteration = maxIter - 1 then StepOut.stepExhausted records
      else StepOut.stepNext oc

/-- The outcome of one extraction session. rounds counts the oracle
request/parse/validate cycles performed. noneResult is the Python
return of None when the while loop never runs (max_iterations = 0). -/
inductive SessionResult where
  | converged (records : List Record) (rounds : Nat)
  | exhausted (records : List Record) (rounds : Nat)
  | raised (rounds : Nat)
  | noneResult
deriving DecidableEq, Repr

/-- The while loop of extract_container_data, with fuel equal to
maxIter - iteration. -/
def extractLoop (responses : Nat → RoundResp) (maxIter : Nat) :
    Nat → Nat → Nat → SessionResult
  | 0, _, _ => SessionResult.noneResult
  | fuel + 1, iteration, oc =>
    match stepRound (responses iteration) iteration maxIter oc with
    | StepOut.stepRaised => SessionResult.raised (iteration + 1)
    | StepOut.stepRetry => extractLoop responses maxIter fuel (iteration + 1) oc
    | StepOut.stepConverged records => SessionResult.converged records (iteration + 1)
    | StepOut.stepExhausted records => SessionResult.exhausted records (iteration + 1)
    | StepOut.stepNext oc2 => extractLoop responses maxIter fuel (iteration + 1) oc2

/-- ContainerOCR.extract_container_data from src/container_ocr.py,
starting at iteration 0 (original_count is unset there; 0 is a dummy
that round 0 always overwrites). -/
def extract_container_data (responses : Nat → RoundResp) (maxIter : Nat) :
    SessionResult :=
  extractLoop responses maxIter maxIter 0 0

/-- Oracle cycles performed by a session outcome. -/
def sessionRounds : SessionResult → Nat
  | SessionResult.converged _ n => n
  | SessionResult.exhausted _ n => n
  | SessionResult.raised n => n
  | SessionResult.noneResult => 0

/-!
## Claim-side definitions

These render the wording of the specification, to be compared with the
definitions above that were translated from the source.
-/

/-- The character value named by the spec: digits map to themselves,
letters map through the fixed gapped table. -/
def specValue (n : Nat) : Nat :=
  match letterValues n with
  | some v => v
  | none => n - 48

/-- The weighted sum named by the spec: the value of the character at
0-indexed position i is multiplied by 2 ^ i and the products summed. -/
def weightedSum : List Nat → Nat → Nat
  | [], _ => 0
  | c :: rest, i => specValue c * 2 ^ i + weightedSum rest (i + 1)

/-- The check digit named by the spec: the weighted sum mod 11, a
remainder of exactly 10 mapping to 0. -/
def checkDigitSpec (body : List Nat) : Nat :=
  let r := weightedSum body 0 % 11
  if r = 10 then 0 else r

/-- The body shape named by the spec: exactly 10 characters, 4 uppercase
letters followed by 6 digits. -/
def isShapedBody (s : List Nat) : Bool :=
  s.length == 10 && (s.take 4).all isUpperCp && (s.drop 4).all isDigitCp

/-- A checksum-valid record used in concrete loop runs. -/
def recA : Record := ⟨some (ofStr "ABCD1234560"), 1⟩

/-- A checksum-invalid record used in concrete loop runs. -/
def recBad : Record := ⟨some (ofStr "ABCD1234561"), 2⟩

/-- A second checksum-valid record used in concrete loop runs. -/
def recB : Record := ⟨some (ofStr "ABCD1234575"), 3⟩

/-- A record whose identifier is the literal sentinel string. -/
def recUnknown : Record := ⟨some (ofStr "Unknown"), 7⟩

/-!
## Character-level and cleaning lemmas
-/

lemma keepCp_iff (n : Nat) :
    keepCp n = true ↔ (65 ≤ n ∧ n ≤ 90) ∨ (48 ≤ n ∧ n ≤ 57) := by
  simp [keepCp, isUpperCp, isDigitCp]

lemma keepCp_cases (n : Nat) (h : keepCp n = true) :
    isUpperCp n = true ∨ isDigitCp n = true := by
  simpa [keepCp] using h

lemma pyUpper_of_keep (n : Nat) (h : keepCp n = true) : pyUpper n = n := by
  rw [keepCp_iff] at h
  unfold pyUpper
  rw [if_neg]
  omega

lemma pyCleanAlnum_of_keep (s : List Nat) (h : ∀ n ∈ s, keepCp n = true) :
    pyCleanAlnum s = s := by
  induction s with
  | nil => rfl
  | cons c t ih =>
    have hc : keepCp c = true := h c (List.mem_cons_self c t)
    have ht : ∀ n ∈ t, keepCp n = true := fun n hn => h n (List.mem_cons_of_mem c hn)
    simp only [pyCleanAlnum, List.map_cons, pyUpper_of_keep c hc,
      List.filter_cons_of_pos hc]
    exact congrArg (c :: ·) (ih ht)

lemma mem_pyCleanAlnum {s : List Nat} {n : Nat} (h : n ∈ pyCleanAlnum s) :
    keepCp n = true :=
  (List.mem_filter.mp h).2

lemma pyCleanAlnum_idem (s : List Nat) :
    pyCleanAlnum (pyCleanAlnum s) = pyCleanAlnum s :=
  pyCleanAlnum_of_keep _ (fun _ hn => mem_pyCleanAlnum hn)

lemma letterValues_isSome_of_upper {n : Nat} (h : isUpperCp n = true) :
    (letterValues n).isSome = true := by
  simp only [isUpperCp, decide_eq_true_eq] at h
  obtain ⟨h1, h2⟩ := h
  interval_cases n <;> rfl

lemma letterValues_of_digit {n : Nat} (h : isDigitCp n = true) :
    letterValues n = none := by
  simp only [isDigitCp, decide_eq_true_eq] at h
  obtain ⟨h1, h2⟩ := h
  interval_cases n <;> rfl

lemma pyIsAlpha_of_upper {n : Nat} (h : isUpperCp n = true) :
    pyIsAlpha n = true := by
  simp [pyIsAlpha, h]

lemma pyIsAlpha_of_digit {n : Nat} (h : isDigitCp n = true) :
    pyIsAlpha n = false := by
  simp only [isUpperCp, isDigitCp, decide_eq_true_eq] at h ⊢
  simp only [pyIsAlpha, isUpperCp, Bool.or_eq_false_iff, decide_eq_false_iff_not]
  omega

/-!
## Check-digit computation lemmas
-/

lemma sumValues_of_keep :
    ∀ (s : List Nat) (i : Nat), (∀ n ∈ s, keepCp n = true) →
      sumValues s i = Except.ok (weightedSum s i) := by
  intro s
  induction s with
  | nil => intro i _; rfl
  | cons c t ih =>
    intro i h
    have hc : keepCp c = true := h c (List.mem_cons_self c t)
    have ht : ∀ n ∈ t, keepCp n = true := fun n hn => h n (List.mem_cons_of_mem c hn)
    rcases keepCp_cases c hc with hu | hd
    · obtain ⟨v, hv⟩ := Option.isSome_iff_exists.mp (letterValues_isSome_of_upper hu)
      simp [sumValues, pyIsAlpha_of_upper hu, hv, ih (i + 1) ht, weightedSum,
        specValue, Except.map]
    · simp [sumValues, pyIsAlpha_of_digit hd, hd, letterValues_of_digit hd,
        ih (i + 1) ht, weightedSum, specValue, Except.map]

lemma calculate_check_digit_of_len10 (s : List Nat)
    (h : (pyCleanAlnum s).length = 10) :
    calculate_check_digit s = Except.ok (checkDigitSpec (pyCleanAlnum s)) := by
  have hk : ∀ n ∈ pyCleanAlnum s, keepCp n = true := fun _ hn => mem_pyCleanAlnum hn
  simp [calculate_check_digit, h, sumValues_of_keep _ 0 hk, checkDigitSpec]

lemma calculate_check_digit_of_len_ne (s : List Nat)
    (h : (pyCleanAlnum s).length ≠ 10) :
    calculate_check_digit s =
      Except.error "Container code must be exactly 10 characters after cleaning" := by
  simp [calculate_check_digit, h]

lemma checkDigitSpec_lt_ten (body : List Nat) : checkDigitSpec body < 10 := by
  have := Nat.mod_lt (weightedSum body 0) (show 0 < 11 by omega)
  simp only [checkDigitSpec]
  split <;> omega

lemma natStr_lt_ten : ∀ d : Nat, d < 10 → natStr d = [48 + d] := by
  intro d hd
  interval_cases d <;> rfl

/-!
## Claim theorems: the validator
-/

/-- C1: for every 10-character body of 4 uppercase letters followed by 6
digits, calculate_check_digit returns the weighted sum of the character
values (digits map to themselves, letters map through the gapped table
letterValues), the character at 0-indexed position i weighted by 2 ^ i,
reduced modulo 11 with a remainder of exactly 10 mapped to 0 — that is,
checkDigitSpec. -/
theorem c1_check_digit_formula
    (a1 a2 a3 a4 d1 d2 d3 d4 d5 d6 : Nat)
    (ha1 : isUpperCp a1 = true) (ha2 : isUpperCp a2 = true)
    (ha3 : isUpperCp a3 = true) (ha4 : isUpperCp a4 = true)
    (hd1 : isDigitCp d1 = true) (hd2 : isDigitCp d2 = true)
    (hd3 : isDigitCp d3 = true) (hd4 : isDigitCp d4 = true)
    (hd5 : isDigitCp d5 = true) (hd6 : isDigitCp d6 = true) :
    calculate_check_digit [a1, a2, a3, a4, d1, d2, d3, d4, d5, d6] =
      Except.ok (checkDigitSpec [a1, a2, a3, a4, d1, d2, d3, d4, d5, d6]) := by
  have hall : ∀ n ∈ [a1, a2, a3, a4, d1, d2, d3, d4, d5, d6], keepCp n = true := by
    intro n hn
    simp only [List.mem_cons, List.not_mem_nil, or_false] at hn
    rcases hn with rfl | rfl | rfl | rfl | rfl | rfl | rfl | rfl | rfl | rfl <;>
      simp [keepCp, *]
  have hcl := pyCleanAlnum_of_keep _ hall
  have hlen : (pyCleanAlnum [a1, a2, a3, a4, d1, d2, d3, d4, d5, d6]).length = 10 := by
    rw [hcl]
    rfl
  rw [calculate_check_digit_of_len10 _ hlen, hcl]

/-- C1 witness: the theorem at the concrete body ABCD123456. -/
theorem c1_witness :
    calculate_check_digit [65, 66, 67, 68, 49, 50, 51, 52, 53, 54] =
      Except.ok (checkDigitSpec [65, 66, 67, 68, 49, 50, 51, 52, 53, 54]) :=
  c1_check_digit_formula 65 66 67 68 49 50 51 52 53 54
    (by decide) (by decide) (by decide) (by decide) (by decide)
    (by decide) (by decide) (by decide) (by decide) (by decide)

/-- C7: clean_container_id (the normalizer) is idempotent and its output
contains only uppercase letters and digits. Totality is the fact that it
is a plain function on every codepoint list. -/
theorem c7_normalize_idempotent (s : List Nat) (c : Nat) :
    clean_container_id (clean_container_id s) = clean_container_id s ∧
    (c ∈ clean_container_id s → (isUpperCp c || isDigitCp c) = true) := by
  refine ⟨pyCleanAlnum_idem s, fun h => ?_⟩
  have hk : keepCp c = true := mem_pyCleanAlnum h
  simpa [keepCp] using hk

/-- C7 witness: the theorem at a concrete mixed input. -/
theorem c7_witness :
    clean_container_id (clean_container_id (ofStr "ab-C3")) =
      clean_container_id (ofStr "ab-C3") ∧
    (isUpperCp 65 || isDigitCp 65) = true :=
  ⟨(c7_normalize_idempotent (ofStr "ab-C3") 65).1,
   (c7_normalize_idempotent (ofStr "ab-C3") 65).2 (by decide)⟩

/-- C8 counterexample: the all-digits body 0000000000 is a normalized
10-character input that is not 4 letters followed by 6 digits, yet
calculate_check_digit accepts it and returns 0 instead of raising. -/
theorem c8_counterexample :
    isShapedBody (ofStr "0000000000") = false ∧
    calculate_check_digit (ofStr "0000000000") = Except.ok 0 :=
  ⟨by decide, rfl⟩

/-- C8 amended: calculate_check_digit raises exactly when the cleaned
input is not 10 characters long; the 4-letters-then-6-digits shape is
not checked, any 10 cleaned alphanumeric characters are accepted. -/
theorem c8_amended (s : List Nat) :
    (calculate_check_digit s).isOk = true ↔ (pyCleanAlnum s).length = 10 := by
  constructor
  · intro h
    by_contra hne
    rw [calculate_check_digit_of_len_ne s hne] at h
    simp [Except.isOk, Except.toBool] at h
  · intro h
    rw [calculate_check_digit_of_len10 s h]
    rfl

/-- C8 witness: the amended theorem at the concrete all-digits body. -/
theorem c8_witness :
    (calculate_check_digit (ofStr "0000000000")).isOk = true ↔
      (pyCleanAlnum (ofStr "0000000000")).length = 10 :=
  c8_amended (ofStr "0000000000")

/-- C10: validate_container_id is total: the body of the function never
raises on any string input, so the try/except wrapper always receives a
boolean and the absorbing branch is only a safety net. -/
theorem c10_validate_total (s : List Nat) :
    validateRaw s = Except.ok (validate_container_id s) := by
  suffices h : ∃ b, validateRaw s = Except.ok b by
    obtain ⟨b, hb⟩ := h
    rw [hb]
    simp [validate_container_id, hb]
  by_cases hpat : matchesContainerPattern (pyCleanAlnum s) = true
  · have hlen : (pyCleanAlnum s).length = 11 := by
      simp only [matchesContainerPattern, Bool.and_eq_true, beq_iff_eq] at hpat
      exact hpat.1.1
    have hne : pyCleanAlnum s ≠ [] := by
      intro h0
      rw [h0] at hlen
      simp at hlen
    obtain ⟨c, hc⟩ := Option.isSome_iff_exists.mp (List.getLast?_isSome.mpr hne)
    by_cases hdig : isDigitCp c = true
    · have hsub : pyCleanAlnum ((pyCleanAlnum s).dropLast) = (pyCleanAlnum s).dropLast :=
        pyCleanAlnum_of_keep _ (fun n hn => mem_pyCleanAlnum (List.mem_of_mem_dropLast hn))
      have hlen10 : (pyCleanAlnum ((pyCleanAlnum s).dropLast)).length = 10 := by
        rw [hsub, List.length_dropLast, hlen]
      refine ⟨natStr (checkDigitSpec (pyCleanAlnum (pyCleanAlnum s).dropLast)) == [c], ?_⟩
      simp [validateRaw, hpat, hlen, hc, hdig,
        calculate_check_digit_of_len10 _ hlen10]
    · exact ⟨false, by simp [validateRaw, hpat, hlen, hc, hdig]⟩
  · exact ⟨false, by simp [validateRaw, hpat]⟩

/-- C2 counterexample: AAAAA12345 is a 10-character body drawn from
uppercase letters and digits; its computed check digit is 5, yet the
11-character string AAAAA123455 fails validate_container_id, because
validation additionally requires the 4-letters-then-7-digits pattern. -/
theorem c2_counterexample :
    (∀ n ∈ ofStr "AAAAA12345", keepCp n = true) ∧
    (ofStr "AAAAA12345").length = 10 ∧
    calculate_check_digit (ofStr "AAAAA12345") = Except.ok 5 ∧
    validate_container_id (ofStr "AAAAA12345" ++ natStr 5) = false :=
  ⟨by decide, by decide, rfl, by decide⟩

/-- C2 amended: for every body of 4 uppercase letters followed by 6
digits (the shape validation accepts), appending the decimal digit
computed by calculate_check_digit yields an identifier that
validate_container_id accepts. -/
theorem c2_roundtrip
    (a1 a2 a3 a4 d1 d2 d3 d4 d5 d6 : Nat)
    (ha1 : isUpperCp a1 = true) (ha2 : isUpperCp a2 = true)
    (ha3 : isUpperCp a3 = true) (ha4 : isUpperCp a4 = true)
    (hd1 : isDigitCp d1 = true) (hd2 : isDigitCp d2 = true)
    (hd3 : isDigitCp d3 = true) (hd4 : isDigitCp d4 = true)
    (hd5 : isDigitCp d5 = true) (hd6 : isDigitCp d6 = true) :
    ∃ d, calculate_check_digit [a1, a2, a3, a4, d1, d2, d3, d4, d5, d6] =
        Except.ok d ∧
      validate_container_id
        ([a1, a2, a3, a4, d1, d2, d3, d4, d5, d6] ++ natStr d) = true := by
  have hall : ∀ n ∈ [a1, a2, a3, a4, d1, d2, d3, d4, d5, d6], keepCp n = true := by
    intro n hn
    simp only [List.mem_cons, List.not_mem_nil, or_false] at hn
    rcases hn with rfl | rfl | rfl | rfl | rfl | rfl | rfl | rfl | rfl | rfl <;>
      simp [keepCp, *]
  have hcl := pyCleanAlnum_of_keep _ hall
  have hlen : (pyCleanAlnum [a1, a2, a3, a4, d1, d2, d3, d4, d5, d6]).length = 10 := by
    rw [hcl]
    rfl
  obtain ⟨d, hd10, hdval⟩ :
      ∃ d, d < 10 ∧ checkDigitSpec [a1, a2, a3, a4, d1, d2, d3, d4, d5, d6] = d :=
    ⟨_, checkDigitSpec_lt_ten _, rfl⟩
  have hcalc : calculate_check_digit [a1, a2, a3, a4, d1, d2, d3, d4, d5, d6] =
      Except.ok d := by
    rw [calculate_check_digit_of_len10 _ hlen, hcl, hdval]
  refine ⟨d, hcalc, ?_⟩
  rw [natStr_lt_ten d hd10]
  show validate_container_id [a1, a2, a3, a4, d1, d2, d3, d4, d5, d6, 48 + d] = true
  have hkd : isDigitCp (48 + d) = true := by
    simp only [isDigitCp, decide_eq_true_eq]
    omega
  have hall2 : ∀ n ∈ [a1, a2, a3, a4, d1, d2, d3, d4, d5, d6, 48 + d],
      keepCp n = true := by
    intro n hn
    simp only [List.mem_cons, List.not_mem_nil, or_false] at hn
    rcases hn with rfl | rfl | rfl | rfl | rfl | rfl | rfl | rfl | rfl | rfl | rfl <;>
      simp [keepCp, *]
  have hcl2 := pyCleanAlnum_of_keep _ hall2
  have hlen11 :
      (pyCleanAlnum [a1, a2, a3, a4, d1, d2, d3, d4, d5, d6, 48 + d]).length = 11 := by
    rw [hcl2]
    rfl
  have hpat : matchesContainerPattern [a1, a2, a3, a4, d1, d2, d3, d4, d5, d6, 48 + d] =
      true := by
    simp [matchesContainerPattern, ha1, ha2, ha3, ha4, hd1, hd2, hd3, hd4, hd5, hd6, hkd]
  have hgl : ([a1, a2, a3, a4, d1, d2, d3, d4, d5, d6, 48 + d] : List Nat).getLast? =
      some (48 + d) := rfl
  have hdl : ([a1, a2, a3, a4, d1, d2, d3, d4, d5, d6, 48 + d] : List Nat).dropLast =
      [a1, a2, a3, a4, d1, d2, d3, d4, d5, d6] := rfl
  have hraw : validateRaw [a1, a2, a3, a4, d1, d2, d3, d4, d5, d6, 48 + d] =
      Except.ok true := by
    simp [validateRaw, hcl2, hpat, hlen11, hgl, hdl, hkd, hcalc, natStr_lt_ten d hd10]
  simp [validate_container_id, hraw]

/-- C2 witness: the amended theorem at the concrete body ABCD123456,
whose check digit is 0. -/
theorem c2_witness :
    ∃ d, calculate_check_digit [65, 66, 67, 68, 49, 50, 51, 52, 53, 54] =
        Except.ok d ∧
      validate_container_id
        ([65, 66, 67, 68, 49, 50, 51, 52, 53, 54] ++ natStr d) = true :=
  c2_roundtrip 65 66 67 68 49 50 51 52 53 54
    (by decide) (by decide) (by decide) (by decide) (by decide)
    (by decide) (by decide) (by decide) (by decide) (by decide)

/-!
## Claim theorems: the correction loop
-/

lemma cleanRecord_of_none (r : Record) (h : r.containerId = none) :
    cleanRecord r = r := by
  cases r
  simp_all [cleanRecord]

/-- C4: the claim says a malformed oracle response is recoverable and the
round is retried while iterations remain; the code instead fails the
whole session on the first malformed response, because the retry handler
catches json.JSONDecodeError while parse_json_response re-raises a plain
Exception. Here round 1 of 3 is malformed, rounds 2 and 3 would parse,
yet the session raises after a single round. -/
theorem c4_parse_failure_fatal :
    extract_container_data
      (fun i => if i = 0 then RoundResp.malformed else RoundResp.parsed [recA]) 3 =
      SessionResult.raised 1 := by decide

/-- C3 counterexample: a record whose identifier is the literal string
Unknown is uppercased by the cleaning pass to UNKNOWN before the
sentinel comparison, fails validation, is placed in the invalid subset,
and keeps the session from converging for all three rounds. -/
theorem c3_counterexample :
    invalidSubset ([recUnknown].map cleanRecord) =
      [⟨some (ofStr "UNKNOWN"), 7⟩] ∧
    extract_container_data (fun _ => RoundResp.parsed [recUnknown]) 3 =
      SessionResult.exhausted [⟨some (ofStr "UNKNOWN"), 7⟩] 3 := by decide

/-- C3 amended: only a record with no container_id entry at all, whose
identifier defaults to the sentinel, is exempt from validation: such a
record is never placed in the invalid subset, and a set of such records
converges on its first round; a record carrying the literal string
Unknown is instead flagged (see the counterexample). -/
theorem c3_missing_id_exempt :
    (∀ (records : List Record) (r : Record), r.containerId = none →
      r ∉ invalidSubset records) ∧
    (∀ records : List Record, (∀ r ∈ records, r.containerId = none) →
      ∀ (responses : Nat → RoundResp) (maxIter : Nat),
        responses 0 = RoundResp.parsed records → 1 ≤ maxIter →
        extract_container_data responses maxIter =
          SessionResult.converged records 1) := by
  constructor
  · intro records r hr hmem
    have hp := (List.mem_filter.mp hmem).2
    simp only [decide_eq_true_eq] at hp
    exact hp.1 (by simp [getId, hr])
  · intro records hall responses maxIter hresp hmax
    obtain ⟨f, rfl⟩ : ∃ f, maxIter = f + 1 := ⟨maxIter - 1, by omega⟩
    have hclean : records.map cleanRecord = records := by
      rw [List.map_congr_left (fun r hr => cleanRecord_of_none r (hall r hr))]
      exact List.map_id records
    have hinv : invalidSubset records = [] := by
      refine List.filter_eq_nil_iff.mpr fun r hr => ?_
      simp [getId, hall r hr]
    have hstep : stepRound (responses 0) 0 (f + 1) 0 = StepOut.stepConverged records := by
      rw [hresp]
      simp only [stepRound, parse_json_response]
      rw [hclean]
      simp [hinv]
    simp [extract_container_data, extractLoop, hstep]

/-- C3 witness: the amended theorem at a one-record set with no
container_id entry. -/
theorem c3_witness :
    (⟨none, 5⟩ : Record) ∉ invalidSubset [⟨none, 5⟩] ∧
    extract_container_data (fun _ => RoundResp.parsed [⟨none, 5⟩]) 3 =
      SessionResult.converged [⟨none, 5⟩] 1 :=
  ⟨c3_missing_id_exempt.1 [⟨none, 5⟩] ⟨none, 5⟩ rfl,
   c3_missing_id_exempt.2 [⟨none, 5⟩] (by decide)
     (fun _ => RoundResp.parsed [⟨none, 5⟩]) 3 rfl (by omega)⟩

/-- C5 counterexample: round 1 yields 3 records with one bad checksum;
round 2 yields 2 records, both checksum-valid, below the original count
of 3. The claim says the session converges on round 2; the code instead
keeps looping and exhausts at round 3 because the termination check
requires the current count to reach the original count. -/
theorem c5_counterexample :
    invalidSubset [recA, recB] = [] ∧
    extract_container_data
      (fun i => if i = 0 then RoundResp.parsed [recA, recBad, recB]
                else RoundResp.parsed [recA, recB]) 3 =
      SessionResult.exhausted [recA, recB] 3 := by decide

/-- C5 amended: on a round after the first with an empty invalid subset
but a record count below originalCount, the count regression blocks the
termination check: the loop does not converge on that round but goes to
another correction round, or breaks as exhausted on the last one. -/
theorem c5_regression_blocks (records : List Record) (iteration maxIter oc : Nat)
    (h0 : iteration ≠ 0)
    (_hinv : invalidSubset (records.map cleanRecord) = [])
    (hlt : (records.map cleanRecord).length < oc) :
    stepRound (RoundResp.parsed records) iteration maxIter oc =
      if iteration = maxIter - 1 then StepOut.stepExhausted (records.map cleanRecord)
      else StepOut.stepNext oc := by
  have hcond : ¬ (invalidSubset (records.map cleanRecord) = [] ∧
      (records.map cleanRecord).length ≥ oc) :=
    fun hc => absurd hlt (Nat.not_lt.mpr hc.2)
  simp only [stepRound, parse_json_response]
  simp only [if_neg h0]
  rw [if_neg hcond]

/-- C5 witness: the amended theorem on the concrete regression round of
the counterexample (iteration 1, original count 3, two valid records). -/
theorem c5_witness :
    stepRound (RoundResp.parsed [recA, recB]) 1 3 3 =
      if 1 = 3 - 1 then StepOut.stepExhausted ([recA, recB].map cleanRecord)
      else StepOut.stepNext 3 :=
  c5_regression_blocks [recA, recB] 1 3 3 (by decide) (by decide) (by decide)

/-- C6: a validated round breaks as converged, returning the cleaned
record list of that round unchanged, exactly when the invalid subset is
empty and the current count reaches originalCount (the count recorded on
round 0); and when it does, the session returns that list immediately
with no further oracle calls. -/
theorem c6_termination_iff (records : List Record) (iteration maxIter oc : Nat) :
    (stepRound (RoundResp.parsed records) iteration maxIter oc =
        StepOut.stepConverged (records.map cleanRecord) ↔
      invalidSubset (records.map cleanRecord) = [] ∧
        (records.map cleanRecord).length ≥
          (if iteration = 0 then records.length else oc)) ∧
    (∀ (responses : Nat → RoundResp) (fuel : Nat),
      responses iteration = RoundResp.parsed records →
      stepRound (RoundResp.parsed records) iteration maxIter oc =
        StepOut.stepConverged (records.map cleanRecord) →
      extractLoop responses maxIter (fuel + 1) iteration oc =
        SessionResult.converged (records.map cleanRecord) (iteration + 1)) := by
  constructor
  · simp only [stepRound, parse_json_response]
    by_cases hcond : invalidSubset (records.map cleanRecord) = [] ∧
        (records.map cleanRecord).length ≥ (if iteration = 0 then records.length else oc)
    · rw [if_pos hcond]
      exact iff_of_true rfl hcond
    · rw [if_neg hcond]
      by_cases hlast : iteration = maxIter - 1
      · rw [if_pos hlast]
        exact iff_of_false (by simp) hcond
      · rw [if_neg hlast]
        exact iff_of_false (by simp) hcond
  · intro responses fuel hresp hstep
    simp [extractLoop, hresp, hstep]

/-- C6 witness: the theorem on a concrete converging first round. -/
theorem c6_witness :
    extractLoop (fun _ => RoundResp.parsed [recA]) 3 3 0 0 =
      SessionResult.converged ([recA].map cleanRecord) 1 :=
  (c6_termination_iff [recA] 0 3 0).2 (fun _ => RoundResp.parsed [recA]) 2
    rfl (by decide)

lemma extractLoop_rounds_le (responses : Nat → RoundResp) (maxIter : Nat) :
    ∀ (fuel iteration oc : Nat),
      sessionRounds (extractLoop responses maxIter fuel iteration oc) ≤
        iteration + fuel := by
  intro fuel
  induction fuel with
  | zero => intro it oc; simp [extractLoop, sessionRounds]
  | succ f ih =>
    intro it oc
    cases hstep : stepRound (responses it) it maxIter oc with
    | stepRaised =>
      simp only [extractLoop, hstep, sessionRounds]
      omega
    | stepRetry =>
      have := ih (it + 1) oc
      simp only [extractLoop, hstep]
      omega
    | stepConverged r =>
      simp only [extractLoop, hstep, sessionRounds]
      omega
    | stepExhausted r =>
      simp only [extractLoop, hstep, sessionRounds]
      omega
    | stepNext oc2 =>
      have := ih (it + 1) oc2
      simp only [extractLoop, hstep]
      omega

/-- C9: for every positive iteration budget and every sequence of oracle
responses, a session performs at most maxIter oracle
request/parse/validate cycles before returning or failing. -/
theorem c9_bounded_rounds (responses : Nat → RoundResp) (maxIter : Nat)
    (_hpos : 1 ≤ maxIter) :
    sessionRounds (extract_container_data responses maxIter) ≤ maxIter := by
  have h := extractLoop_rounds_le responses maxIter maxIter 0 0
  simpa [extract_container_data] using h

/-- C9 witness: the theorem at a concrete response sequence and budget. -/
theorem c9_witness :
    sessionRounds
      (extract_container_data (fun _ => RoundResp.parsed [recUnknown]) 3) ≤ 3 :=
  c9_bounded_rounds (fun _ => RoundResp.parsed [recUnknown]) 3 (by omega)
